import Mathlib

/-!
Shallow embedding of the test-result aggregation and report pipeline:
`scripts/calculate_metrics.py`, `scripts/generate_reports.py` and
`utils/test_report_generator.py`.

Result files are JSON, one record per file.  A file may fail JSON parsing
(`invalid`), parse to a non-object JSON value (`nonDict` — in the source both
parsers have already executed `metrics['total'] += 1` when `data.get(...)`
raises `AttributeError`, which the surrounding `except` swallows), or parse to
an object (`record`).  Field values `start`/`stop` are modelled as integers
(the `data.get(..., 0)` default is folded into the field); `status` and `name`
are optional strings, matching `data.get('status', 'unknown')` /
`data.get('name', 'Unknown')`.  Python float arithmetic on durations and rates
is modelled with exact rationals (`Rat`).
-/

/-- One step of a test record (`step.get('name')`, `step.get('status')`). -/
structure StepRec where
  name : Option String
  status : Option String
deriving DecidableEq, Repr

/-- A parsed JSON result object, restricted to the fields the pipeline reads. -/
structure RawRecord where
  name : Option String
  status : Option String
  start : Int
  stop : Int
  description : Option String
  fullName : Option String
  steps : List StepRec
  attachments : List String
deriving DecidableEq, Repr

/-- Default record: every optional field absent, timestamps 0. -/
def RawRecord.default0 : RawRecord :=
  { name := none, status := none, start := 0, stop := 0,
    description := none, fullName := none, steps := [], attachments := [] }

/-- One file in the results directory, as seen by `json.load`. -/
inductive ResultFile where
  | invalid : ResultFile
  | nonDict : ResultFile
  | record : RawRecord → ResultFile
deriving DecidableEq, Repr

/-! ## Metrics calculator (`scripts/calculate_metrics.py`) -/

/-- Entry of `metrics['tests']` in `calculate_metrics.py` (lines 68-73). -/
structure TestRec where
  name : String
  status : String
  duration : Rat
  fullName : String
deriving DecidableEq, Repr

/-- The `metrics` dictionary of `TestMetricsCalculator`. -/
structure Metrics where
  total : Nat
  passed : Nat
  failed : Nat
  skipped : Nat
  broken : Nat
  total_duration : Rat
  tests : List TestRec
deriving DecidableEq, Repr

/-- Source `_get_empty_metrics` (lines 80-90). -/
def emptyMetrics : Metrics :=
  { total := 0, passed := 0, failed := 0, skipped := 0, broken := 0,
    total_duration := 0, tests := [] }

/-- Duration of one record in the metrics calculator (line 65):
`(stop - start) / 1000 if stop > start else 0`, float division as `Rat`. -/
def calcDuration (r : RawRecord) : Rat :=
  if r.stop > r.start then ((r.stop - r.start : Int) : Rat) / 1000 else 0

/-- One loop iteration of `parse_allure_results` in `calculate_metrics.py`
(lines 45-76).  `invalid` raises before `total += 1`; `nonDict` raises at
`data.get('status', ...)`, after `total += 1`; a record runs to the end. -/
def calcProcessFile (m : Metrics) (f : ResultFile) : Metrics :=
  match f with
  | .invalid => m
  | .nonDict => { m with total := m.total + 1 }
  | .record r =>
    let status := r.status.getD "unknown"
    let m1 := { m with total := m.total + 1 }
    let m2 :=
      if status = "passed" then { m1 with passed := m1.passed + 1 }
      else if status = "failed" then { m1 with failed := m1.failed + 1 }
      else if status = "skipped" then { m1 with skipped := m1.skipped + 1 }
      else if status = "broken" then { m1 with broken := m1.broken + 1 }
      else m1
    let d := calcDuration r
    { m2 with
      total_duration := m2.total_duration + d,
      tests := m2.tests ++
        [{ name := r.name.getD "Unknown", status := status, duration := d,
           fullName := r.fullName.getD "" }] }

/-- Source `TestMetricsCalculator.parse_allure_results` (lines 21-78).  The input is
`none` when the results directory does not exist, `some files` otherwise,
`files` listed in directory scan order. -/
def calc_parse_allure_results (dir : Option (List ResultFile)) : Metrics :=
  match dir with
  | none => emptyMetrics
  | some files =>
    if files.isEmpty then emptyMetrics
    else files.foldl calcProcessFile emptyMetrics

/-- Source `calculate_pass_rate` (lines 92-97). -/
def calculate_pass_rate (m : Metrics) : Rat :=
  if m.total = 0 then 0 else ((m.passed : Rat) / (m.total : Rat)) * 100

/-- Source `calculate_avg_duration` (lines 99-104). -/
def calculate_avg_duration (m : Metrics) : Rat :=
  if m.total = 0 then 0 else m.total_duration / (m.total : Rat)

/-! `get_slowest_tests` (lines 106-113) uses Python `sorted(..., reverse=True)`
with key `x['duration']`.  Python's sort is stable and `reverse=True` keeps
elements with equal keys in input order, so it computes the unique stable
descending sort by duration, here realised as an insertion sort that inserts
each element after all strictly larger *and* all equal earlier elements. -/

/-- Insert `x` (earlier in the input than everything in `l`) into a stable
descending run: skip while the head is strictly slower, else put `x` first. -/
def insertByDurationDesc (x : TestRec) : List TestRec → List TestRec
  | [] => [x]
  | y :: ys =>
    if y.duration > x.duration then y :: insertByDurationDesc x ys
    else x :: y :: ys

/-- Stable descending sort by `duration` (Python `sorted(key=duration,
reverse=True)`). -/
def sortByDurationDesc : List TestRec → List TestRec
  | [] => []
  | x :: xs => insertByDurationDesc x (sortByDurationDesc xs)

/-- Source `get_slowest_tests` (lines 106-113): sort descending, take `count`. -/
def get_slowest_tests (m : Metrics) (count : Nat) : List TestRec :=
  (sortByDurationDesc m.tests).take count

/-- Source `get_failed_tests` (lines 115-117). -/
def get_failed_tests (m : Metrics) : List TestRec :=
  m.tests.filter (fun t => t.status = "failed")

/-! ## Report generator parser (`utils/test_report_generator.py`) -/

/-- Entry of `test_results['tests']` in `test_report_generator.py`
(lines 54-61).  The duration is `data.get('stop', 0) - data.get('start', 0)`,
an integer difference with no clamping. -/
structure GenTestRec where
  name : String
  status : String
  duration : Int
  description : String
  steps : List StepRec
  attachments : List String
deriving DecidableEq, Repr

/-- The `test_results` dictionary of `TestReportGenerator` (no `broken`
bucket). -/
structure GenResults where
  total : Nat
  passed : Nat
  failed : Nat
  skipped : Nat
  tests : List GenTestRec
deriving DecidableEq, Repr

/-- Initial `test_results` value (lines 30-36). -/
def emptyGenResults : GenResults :=
  { total := 0, passed := 0, failed := 0, skipped := 0, tests := [] }

/-- Duration of one record in the report generator (line 57):
`data.get('stop', 0) - data.get('start', 0)`, unclamped. -/
def genDuration (r : RawRecord) : Int :=
  r.stop - r.start

/-- One loop iteration of `parse_allure_results` in
`test_report_generator.py` (lines 39-63). -/
def genProcessFile (m : GenResults) (f : ResultFile) : GenResults :=
  match f with
  | .invalid => m
  | .nonDict => { m with total := m.total + 1 }
  | .record r =>
    let status := r.status.getD "unknown"
    let m1 := { m with total := m.total + 1 }
    let m2 :=
      if status = "passed" then { m1 with passed := m1.passed + 1 }
      else if status = "failed" then { m1 with failed := m1.failed + 1 }
      else if status = "skipped" then { m1 with skipped := m1.skipped + 1 }
      else m1
    { m2 with
      tests := m2.tests ++
        [{ name := r.name.getD "Unknown", status := status,
           duration := genDuration r, description := r.description.getD "",
           steps := r.steps, attachments := r.attachments }] }

/-- Source `TestReportGenerator.parse_allure_results` (lines 24-65).  When the
results directory does not exist the source returns the empty dict `{}`
(falsy), modelled as `none`; otherwise the populated (truthy) dictionary. -/
def gen_parse_allure_results (dir : Option (List ResultFile)) :
    Option GenResults :=
  match dir with
  | none => none
  | some files => some (files.foldl genProcessFile emptyGenResults)

/-! ## Decimal rendering of integers (Python `str`/f-string interpolation) -/

/-- The ASCII digit character for `n < 10`. -/
def digitChar10 (n : Nat) : Char := Char.ofNat (48 + n)

/-- Little-endian decimal digit characters, with explicit fuel so that the
recursion is structural (`fuel ≥ n` always suffices since `n / 10 < n`). -/
def natDigitsLEAux : Nat → Nat → List Char
  | 0, _ => []
  | _ + 1, 0 => []
  | fuel + 1, n + 1 => digitChar10 ((n + 1) % 10) :: natDigitsLEAux fuel ((n + 1) / 10)

/-- Little-endian decimal digit characters of a positive number. -/
def natDigitsLE (n : Nat) : List Char := natDigitsLEAux n n

/-- Decimal rendering of a natural number, as Python `str(n)` renders a
non-negative `int`. -/
def renderNat (n : Nat) : String :=
  if n = 0 then "0" else String.mk (natDigitsLE n).reverse

/-! ## Counting predicates over result files -/

/-- Files that reach `total += 1` (everything `json.load` accepts). -/
def isCounted : ResultFile → Bool
  | .invalid => false
  | _ => true

/-- Files that contribute an entry to the `tests` list. -/
def isRecordFile : ResultFile → Bool
  | .record _ => true
  | _ => false

/-- Valid-JSON files whose top level is not an object. -/
def isNonDictFile : ResultFile → Bool
  | .nonDict => true
  | _ => false

/-- The status a parser sees for a file, `none` when processing never reaches
`data.get('status', 'unknown')`. -/
def fileStatus? : ResultFile → Option String
  | .record r => some (r.status.getD "unknown")
  | _ => none

/-- The file is a record whose observed status is `s`. -/
def hasStatus (s : String) (f : ResultFile) : Bool :=
  fileStatus? f == some s

/-- Counted in `total` by the metrics calculator but in none of its four
status buckets. -/
def calcNoBucket (f : ResultFile) : Bool :=
  match f with
  | .invalid => false
  | .nonDict => true
  | .record r =>
    let st := r.status.getD "unknown"
    !(st == "passed" || st == "failed" || st == "skipped" || st == "broken")

/-- Counted in `total` by the report generator but in none of its three
status buckets. -/
def genNoBucket (f : ResultFile) : Bool :=
  match f with
  | .invalid => false
  | .nonDict => true
  | .record r =>
    let st := r.status.getD "unknown"
    !(st == "passed" || st == "failed" || st == "skipped")

/-- Modelled from the spec: a record whose status is missing or unrecognized,
i.e. normalizes to `unknown` in the spec's five-value status taxonomy
(`passed | failed | skipped | broken | unknown`). -/
def specUnknownStatus (f : ResultFile) : Bool :=
  match f with
  | .invalid => false
  | .nonDict => true
  | .record r =>
    let st := r.status.getD "unknown"
    !(st == "passed" || st == "failed" || st == "skipped" || st == "broken")

/-! ## Claim C3: metrics-only entry point (`calculate_metrics.py main`) -/

/-- Content of `metrics.txt` written by `save_metrics_file` (lines 175-192),
modelled as the values before the two-decimal `:.2f` formatting. -/
structure MetricsFile where
  test_total : Nat
  test_passed : Nat
  test_failed : Nat
  test_skipped : Nat
  test_pass_rate : Rat
  test_avg_duration : Rat
  test_total_duration : Rat
deriving DecidableEq, Repr

/-- Source `save_metrics_file` (lines 175-192). -/
def save_metrics_file (m : Metrics) : MetricsFile :=
  { test_total := m.total, test_passed := m.passed, test_failed := m.failed,
    test_skipped := m.skipped, test_pass_rate := calculate_pass_rate m,
    test_avg_duration := calculate_avg_duration m,
    test_total_duration := m.total_duration }

/-- The all-zero summary file. -/
def allZeroMetricsFile : MetricsFile :=
  { test_total := 0, test_passed := 0, test_failed := 0, test_skipped := 0,
    test_pass_rate := 0, test_avg_duration := 0, test_total_duration := 0 }

/-- Observable outcome of one run of `calculate_metrics.py main`. -/
structure CalcRun where
  exitCode : Nat
  metricsFile : MetricsFile
  wroteSummaryJson : Bool
  wroteMarkdownSummary : Bool
deriving DecidableEq, Repr

/-- Source `main` of `calculate_metrics.py` (lines 299-330).  With `total = 0` it
writes only the metrics file and exits 0 (line 314); otherwise it writes all
three outputs and exits 0 on both the `failed > 0` branch (line 327, a
deliberate "don't fail the metrics job") and the all-passed branch
(line 330). -/
def calc_main (dir : Option (List ResultFile)) : CalcRun :=
  let metrics := calc_parse_allure_results dir
  if metrics.total = 0 then
    { exitCode := 0, metricsFile := save_metrics_file metrics,
      wroteSummaryJson := false, wroteMarkdownSummary := false }
  else
    { exitCode := if metrics.failed > 0 then 0 else 0,
      metricsFile := save_metrics_file metrics,
      wroteSummaryJson := true, wroteMarkdownSummary := true }

/-! ## Claim C2: full-report entry point (`generate_reports.py main`) -/

/-- Observable outcome of one run of `generate_reports.py main`: the process
exit code and the report artifacts it goes on to write (modelled coarsely as
tags; only the early-exit branches, which write nothing, matter to the
claims). -/
structure ReportRun where
  exitCode : Nat
  reportsWritten : List String
deriving DecidableEq, Repr

/-- Source `main` of `generate_reports.py` (lines 16-87).  A missing results
directory exits 1 before writing anything (lines 29-32); zero discovered
result files exit 1 before writing anything (lines 38-40).  Otherwise
`generate_all_formats` writes the comprehensive report set unless its own
parse comes back with `total == 0`, the executive-summary block always runs
(the parsed dict is truthy whenever the directory exists), and the process
exits 1 exactly when `results['failed'] > 0` (lines 83-87). -/
def reports_main (dir : Option (List ResultFile)) : ReportRun :=
  match dir with
  | none => { exitCode := 1, reportsWritten := [] }
  | some files =>
    if files.length = 0 then { exitCode := 1, reportsWritten := [] }
    else
      let results := files.foldl genProcessFile emptyGenResults
      let allFormats :=
        if results.total = 0 then []
        else ["comprehensive.md", "obsidian.md", "html", "docx", "pdf"]
      let execFormats := ["executive_summary.md", "executive.html", "executive.docx"]
      { exitCode := if results.failed > 0 then 1 else 0,
        reportsWritten := allFormats ++ execFormats }

/-! ## Decimal parsing (the spec's Markdown-table re-parse, claim C9) -/

/-- Modelled from the spec: accumulator pass of re-parsing a decimal integer
cell, rejecting any non-digit character. -/
def parseDigitsAcc (acc : Nat) : List Char → Option Nat
  | [] => some acc
  | c :: cs =>
    if c.isDigit then parseDigitsAcc (10 * acc + (c.toNat - 48)) cs else none

/-- Modelled from the spec: re-parse a non-empty all-digit character list as a
decimal integer. -/
def parseDigits (cs : List Char) : Option Nat :=
  match cs with
  | [] => none
  | _ => parseDigitsAcc 0 cs

/-! ## Claim C6: GitLab badge data and quality band -/

/-- The badge payload of `create_gitlab_badge_data` (lines 194-211). -/
structure BadgeData where
  schemaVersion : Nat
  label : String
  message : String
  color : String
deriving DecidableEq, Repr

/-- Source `create_gitlab_badge_data` (lines 194-211): color thresholds 95/80, and
message `"<passed>/<total> passed"`. -/
def create_gitlab_badge_data (m : Metrics) : BadgeData :=
  let pass_rate := calculate_pass_rate m
  let color :=
    if pass_rate ≥ 95 then "success"
    else if pass_rate ≥ 80 then "warning"
    else "critical"
  { schemaVersion := 1, label := "tests",
    message := renderNat m.passed ++ "/" ++ renderNat m.total ++ " passed",
    color := color }

/-- The quality-assessment line printed by `print_metrics` (lines 162-171). -/
def print_quality_assessment (pass_rate : Rat) : String :=
  if pass_rate = 100 then "   ✅ EXCELLENT - All tests passed!"
  else if pass_rate ≥ 95 then "   ✅ GOOD - Minor issues detected"
  else if pass_rate ≥ 80 then "   ⚠️  WARNING - Significant failures"
  else "   ❌ CRITICAL - Major issues detected"

/-- The spec's example metrics: 18 passed, 1 failed, 1 skipped of 20. -/
def exampleMetrics1820 : Metrics :=
  { emptyMetrics with total := 20, passed := 18, failed := 1, skipped := 1 }

/-- A concrete test record with the given name and duration. -/
def trec (nm : String) (d : Rat) : TestRec :=
  { name := nm, status := "passed", duration := d, fullName := "" }

/-- The spec's slowest-tests example: durations `[5, 1, 9, 3]`. -/
def slowExampleMetrics : Metrics :=
  { emptyMetrics with
    tests := [trec "t1" 5, trec "t2" 1, trec "t3" 9, trec "t4" 3] }

/-! ## Claim C8: Markdown summary (`generate_markdown_summary`, lines 240-296) -/

/-- Left-pad a digit string with zeros to width `k`. -/
def padZeros (k : Nat) (s : String) : String :=
  String.mk (List.replicate (k - s.length) '0') ++ s

/-- Fixed-point rendering of a rational with `prec` decimals, modelling
Python's `:.Nf` float format (Python rounds ties to even on binary floats;
the tie behaviour is not load-bearing for any claim). -/
def fmtRat (prec : Nat) (q : Rat) : String :=
  let n : Int := round (q * (10 : Rat) ^ prec)
  let sign := if n < 0 then "-" else ""
  let a := n.natAbs
  if prec = 0 then sign ++ renderNat a
  else sign ++ renderNat (a / 10 ^ prec) ++ "." ++
    padZeros prec (renderNat (a % 10 ^ prec))

/-- The ASCII pass-rate bar:
`'█' * int(pass_rate / 5)` then `'░' * (20 - int(pass_rate / 5))` (Python's
negative string repetition yields the empty string, as does `Nat`
subtraction). -/
def passRateBar (rate : Rat) : String :=
  String.mk (List.replicate (rate / 5).floor.toNat '█') ++
    String.mk (List.replicate (20 - (rate / 5).floor.toNat) '░')

/-- The fixed part of the Markdown summary (lines 244-279): headline, status
line, metrics table and pass-rate visualization. -/
def md_base (m : Metrics) : String :=
  let pass_rate := calculate_pass_rate m
  let avg_duration := calculate_avg_duration m
  let se :=
    if pass_rate = 100 then ("✅", "All tests passed")
    else if pass_rate ≥ 95 then ("✅", "Tests mostly passed")
    else if pass_rate ≥ 80 then ("⚠️", "Some tests failed")
    else ("❌", "Many tests failed")
  "## " ++ se.1 ++ " Test Results Summary\n\n" ++
  "**Status:** " ++ se.2 ++ "\n\n" ++
  "| Metric | Value |\n|--------|-------|\n" ++
  "| Total Tests | " ++ renderNat m.total ++ " |\n" ++
  "| ✅ Passed | " ++ renderNat m.passed ++ " |\n" ++
  "| ❌ Failed | " ++ renderNat m.failed ++ " |\n" ++
  "| ⏭️ Skipped | " ++ renderNat m.skipped ++ " |\n" ++
  "| **Pass Rate** | **" ++ fmtRat 1 pass_rate ++ "%** |\n" ++
  "| Total Duration | " ++ fmtRat 1 m.total_duration ++ "s |\n" ++
  "| Avg Duration | " ++ fmtRat 2 avg_duration ++ "s |\n\n" ++
  "### Pass Rate Visualization\n```\n" ++
  fmtRat 1 pass_rate ++ "% " ++ passRateBar pass_rate ++ "\n```\n"

/-- One bullet of the failed-tests section (line 286). -/
def failed_bullet (t : TestRec) : String :=
  "- `" ++ t.name ++ "`\n"

/-- The failed-tests section (lines 282-286): absent when there are no failed
tests, otherwise the header then one bullet per failed test, appended in
order. -/
def md_failed_section (failed : List TestRec) : String :=
  if failed.isEmpty then ""
  else failed.foldl (fun acc t => acc ++ failed_bullet t)
    "\n### ❌ Failed Tests\n\n"

/-- One bullet of the slowest-tests section (line 293). -/
def slowest_bullet (t : TestRec) : String :=
  "- `" ++ t.name ++ "` - " ++ fmtRat 2 t.duration ++ "s\n"

/-- The slowest-tests section (lines 289-293). -/
def md_slowest_section (slowest : List TestRec) : String :=
  if slowest.isEmpty then ""
  else slowest.foldl (fun acc t => acc ++ slowest_bullet t)
    "\n### 🐌 Slowest Tests\n\n"

/-- Source `generate_markdown_summary` (lines 240-296), as the written file content. -/
def generate_markdown_summary (m : Metrics) : String :=
  md_base m ++ md_failed_section (get_failed_tests m) ++
    md_slowest_section (get_slowest_tests m 5)

/-! ## Claim C9: comprehensive report round trip

`_generate_comprehensive_report` (test_report_generator.py, lines 78-206)
builds one Markdown string from `\n`-terminated chunks.  It is embedded here
at line granularity: each list element is one line of the emitted document,
and the document text is the lines joined by newlines (each source chunk ends
in `\n`; a chunk-final `\n\n` contributes an empty line element). -/

/-- The `pass_rate` of the report generator (line 84):
`(passed / total * 100) if total > 0 else 0`. -/
def gen_pass_rate (r : GenResults) : Rat :=
  if 0 < r.total then ((r.passed : Rat) / (r.total : Rat)) * 100 else 0

/-- Source `_calculate_avg_duration` (lines 253-258): mean duration in milliseconds. -/
def gen_calculate_avg_duration (tests : List GenTestRec) : Rat :=
  if tests.isEmpty then 0
  else (((tests.map (fun t => t.duration)).sum : Int) : Rat) /
    (tests.length : Rat) / 1000000

/-- Duration cell `{duration / 1000000:.0f}` in milliseconds. -/
def fmt0ms (d : Int) : String :=
  fmtRat 0 ((d : Rat) / 1000000)

/-- A failed-steps bullet (line 145). -/
def stepLineFailed (st : StepRec) : String :=
  "    - " ++ (if st.status = some "passed" then "✓" else "✗") ++ " " ++
    st.name.getD "Unknown step"

/-- A detailed-breakdown step bullet (line 191). -/
def stepLineDetailed (st : StepRec) : String :=
  "- " ++ (if st.status = some "passed" then "✓" else "✗") ++ " " ++
    st.name.getD "Unknown"

/-- Lines contributed by one test to the passed-tests section (lines 118-125). -/
def passedTestLines (t : GenTestRec) : List String :=
  if t.status = "passed" then
    ["- **" ++ t.name ++ "** ✓",
     "  - Duration: " ++ fmt0ms t.duration ++ "ms"] ++
    (if t.description ≠ "" then ["  - Description: " ++ t.description] else []) ++
    [""]
  else []

/-- Lines contributed by one test to the failed-tests section (lines 132-146). -/
def failedTestLines (t : GenTestRec) : List String :=
  if t.status = "failed" then
    ["- **" ++ t.name ++ "** ✗",
     "  - Duration: " ++ fmt0ms t.duration ++ "ms"] ++
    (if t.description ≠ "" then ["  - Description: " ++ t.description] else []) ++
    (if t.steps.isEmpty then []
     else "  - **Failed Steps:**" :: t.steps.map stepLineFailed) ++
    [""]
  else []

/-- Status emoji of the detailed breakdown (lines 174-178). -/
def statusEmoji (s : String) : String :=
  if s = "passed" then "✅"
  else if s = "failed" then "❌"
  else if s = "skipped" then "⏭️"
  else "❓"

/-- Lines of one entry of the detailed breakdown (lines 173-193),
`i` the 1-based `enumerate` index. -/
def detailedTestLines (i : Nat) (t : GenTestRec) : List String :=
  ["### " ++ renderNat i ++ ". " ++ t.name ++ " " ++ statusEmoji t.status,
   "",
   "**Status:** " ++ t.status.toUpper ++ "  ",
   "**Duration:** " ++ fmt0ms t.duration ++ "ms  "] ++
  (if t.description ≠ "" then ["**Description:** " ++ t.description ++ "  "] else []) ++
  (if t.steps.isEmpty then []
   else ["", "**Test Steps:**", ""] ++ t.steps.map stepLineDetailed) ++
  ["", "---", ""]

/-- The detailed breakdown of all tests, `enumerate(results['tests'], 1)`. -/
def detailedAllLines : Nat → List GenTestRec → List String
  | _, [] => []
  | i, t :: ts => detailedTestLines i t ++ detailedAllLines (i + 1) ts

/-- Lines of the first chunk of the comprehensive report (lines 86-116):
title, generation stamp, the Executive Summary table, the status-overview
bar, through the passed-tests section header. -/
def comprehensiveHeader (r : GenResults) (timestamp : String) : List String :=
  ["# 🧪 Test Execution Report",
   "",
   "**Generated:** " ++ timestamp ++ "  ",
   "**Project:** QA Automation Framework",
   "",
   "---",
   "",
   "## 📊 Executive Summary",
   "",
   "| Metric | Value |",
   "|--------|-------|",
   "| Total Tests | " ++ renderNat r.total ++ " |",
   "| ✅ Passed | " ++ renderNat r.passed ++ " |",
   "| ❌ Failed | " ++ renderNat r.failed ++ " |",
   "| ⏭️ Skipped | " ++ renderNat r.skipped ++ " |",
   "| **Pass Rate** | **" ++ fmtRat 1 (gen_pass_rate r) ++ "%** |",
   "",
   "### Status Overview",
   "",
   "```",
   "Pass Rate: " ++ fmtRat 1 (gen_pass_rate r) ++ "%",
   passRateBar (gen_pass_rate r),
   "```",
   "",
   "---",
   "",
   "## 📋 Test Results by Status",
   "",
   "### ✅ Passed Tests (" ++ renderNat r.passed ++ ")",
   ""]

/-- Lines of the remainder of the comprehensive report (lines 117-205):
per-status sections, metrics tables, detailed breakdown and closing notes. -/
def comprehensiveRest (r : GenResults) : List String :=
  (r.tests.map passedTestLines).flatten ++
  ["",
   "### ❌ Failed Tests (" ++ renderNat r.failed ++ ")",
   ""] ++
  (r.tests.map failedTestLines).flatten ++
  ["",
   "---",
   "",
   "## 📈 Test Metrics",
   "",
   "### Performance Metrics",
   "",
   "| Test Type | Average Duration | Count |",
   "|-----------|------------------|-------|",
   "| Smoke | - | - |",
   "| Regression | - | - |",
   "| Total | " ++ fmtRat 0 (gen_calculate_avg_duration r.tests) ++ "ms | " ++
     renderNat r.total ++ " |",
   "",
   "### Coverage Analysis",
   "",
   "- **Critical Path Tests:** " ++ renderNat r.passed ++ " / " ++
     renderNat r.total,
   "- **Security Tests:** Pending analysis",
   "- **API Tests:** Pending analysis",
   "",
   "---",
   "",
   "## 🔍 Detailed Test Breakdown",
   ""] ++
  detailedAllLines 1 r.tests ++
  ["",
   "## 📝 Notes",
   "",
   "- All tests executed in automated CI/CD pipeline",
   "- Test artifacts stored in Allure report",
   "- Full trace logs available in `logs/` directory",
   "",
   "---",
   "",
   "*Report generated by QA Automation Framework*"]

/-- Source `_generate_comprehensive_report` (lines 78-206), as the list of lines of
the emitted Markdown document. -/
def comprehensiveLines (r : GenResults) (timestamp : String) : List String :=
  comprehensiveHeader r timestamp ++ comprehensiveRest r

/-- Modelled from the spec: strip an expected prefix from a character list. -/
def stripPrefixChars : List Char → List Char → Option (List Char)
  | [], cs => some cs
  | _ :: _, [] => none
  | p :: ps, c :: cs => if c = p then stripPrefixChars ps cs else none

/-- Modelled from the spec: strip the trailing `" |"` cell delimiter. -/
def stripCellSuffix (cs : List Char) : Option (List Char) :=
  match cs.reverse with
  | c1 :: c2 :: rs => if c1 = '|' ∧ c2 = ' ' then some rs.reverse else none
  | _ => none

/-- Modelled from the spec: re-parse one emitted table line as the row with
the given label, returning its integer cell. -/
def matchRow (label : String) (line : String) : Option Nat :=
  match stripPrefixChars ("| " ++ label ++ " | ").data line.data with
  | none => none
  | some rest =>
    match stripCellSuffix rest with
    | none => none
    | some cell => parseDigits cell

/-- Modelled from the spec: re-parse the integer cell of the first table row
with the given label from the emitted Markdown document's lines. -/
def parseRowNat (label : String) (lines : List String) : Option Nat :=
  lines.findSome? (matchRow label)

/-! ## Theorems -/

/-! ## Claim C4 -/

/-- C4: for every metrics value with `passed ≤ total` (counts are `Nat`, hence
non-negative), `calculate_pass_rate` returns `0` when `total = 0` and
`passed/total*100`, lying in `[0, 100]`, when `total > 0`. -/
theorem calculate_pass_rate_spec (m : Metrics) (h : m.passed ≤ m.total) :
    (m.total = 0 → calculate_pass_rate m = 0) ∧
    (0 < m.total → calculate_pass_rate m = ((m.passed : Rat) / (m.total : Rat)) * 100) ∧
    0 ≤ calculate_pass_rate m ∧ calculate_pass_rate m ≤ 100 := by
  unfold calculate_pass_rate
  by_cases h0 : m.total = 0
  · simp [h0]
  · have hpos : (0 : Rat) < (m.total : Rat) := by
      exact_mod_cast Nat.pos_of_ne_zero h0
    have hle : (m.passed : Rat) ≤ (m.total : Rat) := by exact_mod_cast h
    have hdiv : (m.passed : Rat) / (m.total : Rat) ≤ 1 :=
      (div_le_one hpos).mpr hle
    refine ⟨fun hc => absurd hc h0, fun _ => by simp [h0], ?_, ?_⟩
    · simp only [h0, if_false]
      positivity
    · simp only [h0, if_false]
      calc (m.passed : Rat) / (m.total : Rat) * 100 ≤ 1 * 100 := by
            apply mul_le_mul_of_nonneg_right hdiv; norm_num
        _ = 100 := by norm_num

/-- C4 witness: `passed = 1, total = 2` gives pass rate `50`, within bounds. -/
theorem calculate_pass_rate_spec_witness :
    (0 < ({ emptyMetrics with total := 2, passed := 1 } : Metrics).total →
      calculate_pass_rate { emptyMetrics with total := 2, passed := 1 } =
        ((1 : Rat) / (2 : Rat)) * 100) ∧
    calculate_pass_rate { emptyMetrics with total := 2, passed := 1 } ≤ 100 := by
  have h := calculate_pass_rate_spec { emptyMetrics with total := 2, passed := 1 }
    (by decide)
  exact ⟨fun _ => (h.2.1 (by decide)), h.2.2.2⟩

/-! ## Claim C1: per-record duration -/

/-- C1 counterexample: a record with `start = 5`, `stop = 3`.  The report
generator stores duration `-2`, not the clamped `max (stop - start) 0 = 0`:
the claim that both components store the clamped difference is false. -/
theorem gen_duration_not_clamped :
    ((gen_parse_allure_results
        (some [.record { RawRecord.default0 with start := 5, stop := 3 }])).map
      (fun res => res.tests.map (fun t => t.duration))) = some [-2] ∧
    max ((3 : Int) - 5) 0 = 0 ∧ (-2 : Int) ≠ 0 := by
  refine ⟨?_, by decide, by decide⟩
  rfl

/-- C1 amended: the metrics calculator stores the clamped difference
`max (stop - start) 0 / 1000` seconds, but the report generator stores the
raw difference `stop - start` (negative whenever `stop < start`), rendered as
milliseconds after division by 1,000,000 only at display time. -/
theorem duration_amended (r : RawRecord) :
    calcDuration r = ((max (r.stop - r.start) 0 : Int) : Rat) / 1000 ∧
    genDuration r = r.stop - r.start := by
  refine ⟨?_, rfl⟩
  unfold calcDuration
  by_cases h : r.stop > r.start
  · have : max (r.stop - r.start) 0 = r.stop - r.start := by omega
    simp [h, this]
  · have : max (r.stop - r.start) 0 = 0 := by omega
    simp [h, this]

/-- Effect of the metrics calculator's fold on counts and list length. -/
theorem calc_foldl_counts (files : List ResultFile) (m : Metrics) :
    (files.foldl calcProcessFile m).total = m.total + files.countP isCounted ∧
    (files.foldl calcProcessFile m).passed =
      m.passed + files.countP (hasStatus "passed") ∧
    (files.foldl calcProcessFile m).failed =
      m.failed + files.countP (hasStatus "failed") ∧
    (files.foldl calcProcessFile m).skipped =
      m.skipped + files.countP (hasStatus "skipped") ∧
    (files.foldl calcProcessFile m).broken =
      m.broken + files.countP (hasStatus "broken") ∧
    (files.foldl calcProcessFile m).tests.length =
      m.tests.length + files.countP isRecordFile := by
  induction files generalizing m with
  | nil => simp
  | cons f fs ih =>
    have step :
        (calcProcessFile m f).total = m.total + (if isCounted f then 1 else 0) ∧
        (calcProcessFile m f).passed =
          m.passed + (if hasStatus "passed" f then 1 else 0) ∧
        (calcProcessFile m f).failed =
          m.failed + (if hasStatus "failed" f then 1 else 0) ∧
        (calcProcessFile m f).skipped =
          m.skipped + (if hasStatus "skipped" f then 1 else 0) ∧
        (calcProcessFile m f).broken =
          m.broken + (if hasStatus "broken" f then 1 else 0) ∧
        (calcProcessFile m f).tests.length =
          m.tests.length + (if isRecordFile f then 1 else 0) := by
      cases f with
      | invalid => simp [calcProcessFile, isCounted, hasStatus, fileStatus?,
          isRecordFile]
      | nonDict => simp [calcProcessFile, isCounted, hasStatus, fileStatus?,
          isRecordFile]
      | record r =>
        simp only [calcProcessFile, isCounted, hasStatus, fileStatus?,
          isRecordFile, Option.some.injEq, beq_iff_eq]
        by_cases h1 : r.status.getD "unknown" = "passed" <;>
          by_cases h2 : r.status.getD "unknown" = "failed" <;>
            by_cases h3 : r.status.getD "unknown" = "skipped" <;>
              by_cases h4 : r.status.getD "unknown" = "broken" <;>
                simp_all
    have ihh := ih (calcProcessFile m f)
    simp only [List.foldl_cons, List.countP_cons] at *
    refine ⟨?_, ?_, ?_, ?_, ?_, ?_⟩ <;> omega

/-- Effect of the report generator's fold on counts and list length. -/
theorem gen_foldl_counts (files : List ResultFile) (m : GenResults) :
    (files.foldl genProcessFile m).total = m.total + files.countP isCounted ∧
    (files.foldl genProcessFile m).passed =
      m.passed + files.countP (hasStatus "passed") ∧
    (files.foldl genProcessFile m).failed =
      m.failed + files.countP (hasStatus "failed") ∧
    (files.foldl genProcessFile m).skipped =
      m.skipped + files.countP (hasStatus "skipped") ∧
    (files.foldl genProcessFile m).tests.length =
      m.tests.length + files.countP isRecordFile := by
  induction files generalizing m with
  | nil => simp
  | cons f fs ih =>
    have step :
        (genProcessFile m f).total = m.total + (if isCounted f then 1 else 0) ∧
        (genProcessFile m f).passed =
          m.passed + (if hasStatus "passed" f then 1 else 0) ∧
        (genProcessFile m f).failed =
          m.failed + (if hasStatus "failed" f then 1 else 0) ∧
        (genProcessFile m f).skipped =
          m.skipped + (if hasStatus "skipped" f then 1 else 0) ∧
        (genProcessFile m f).tests.length =
          m.tests.length + (if isRecordFile f then 1 else 0) := by
      cases f with
      | invalid => simp [genProcessFile, isCounted, hasStatus, fileStatus?,
          isRecordFile]
      | nonDict => simp [genProcessFile, isCounted, hasStatus, fileStatus?,
          isRecordFile]
      | record r =>
        simp only [genProcessFile, isCounted, hasStatus, fileStatus?,
          isRecordFile, Option.some.injEq, beq_iff_eq]
        by_cases h1 : r.status.getD "unknown" = "passed" <;>
          by_cases h2 : r.status.getD "unknown" = "failed" <;>
            by_cases h3 : r.status.getD "unknown" = "skipped" <;>
              simp_all
    have ihh := ih (genProcessFile m f)
    simp only [List.foldl_cons, List.countP_cons] at *
    refine ⟨?_, ?_, ?_, ?_, ?_⟩ <;> omega

/-- A file is counted in `total` by the metrics calculator exactly when it
lands in one of the four buckets or in none (`calcNoBucket`). -/
theorem countP_calc_partition (files : List ResultFile) :
    files.countP isCounted =
      files.countP (hasStatus "passed") + files.countP (hasStatus "failed") +
      files.countP (hasStatus "skipped") + files.countP (hasStatus "broken") +
      files.countP calcNoBucket := by
  induction files with
  | nil => simp
  | cons f fs ih =>
    simp only [List.countP_cons]
    cases f with
    | invalid => simpa [isCounted, hasStatus, fileStatus?, calcNoBucket]
        using ih
    | nonDict =>
      simp [isCounted, hasStatus, fileStatus?, calcNoBucket, ih]
      omega
    | record r =>
      simp only [isCounted, hasStatus, fileStatus?, calcNoBucket,
        Option.some.injEq, beq_iff_eq]
      by_cases h1 : r.status.getD "unknown" = "passed" <;>
        by_cases h2 : r.status.getD "unknown" = "failed" <;>
          by_cases h3 : r.status.getD "unknown" = "skipped" <;>
            by_cases h4 : r.status.getD "unknown" = "broken" <;>
              simp_all <;> omega

/-- Same partition for the report generator's three buckets. -/
theorem countP_gen_partition (files : List ResultFile) :
    files.countP isCounted =
      files.countP (hasStatus "passed") + files.countP (hasStatus "failed") +
      files.countP (hasStatus "skipped") + files.countP genNoBucket := by
  induction files with
  | nil => simp
  | cons f fs ih =>
    simp only [List.countP_cons]
    cases f with
    | invalid => simpa [isCounted, hasStatus, fileStatus?, genNoBucket]
        using ih
    | nonDict =>
      simp [isCounted, hasStatus, fileStatus?, genNoBucket, ih]
      omega
    | record r =>
      simp only [isCounted, hasStatus, fileStatus?, genNoBucket,
        Option.some.injEq, beq_iff_eq]
      by_cases h1 : r.status.getD "unknown" = "passed" <;>
        by_cases h2 : r.status.getD "unknown" = "failed" <;>
          by_cases h3 : r.status.getD "unknown" = "skipped" <;>
            simp_all <;> omega

/-- Counted files split into records and non-dict files. -/
theorem countP_counted_split (files : List ResultFile) :
    files.countP isCounted =
      files.countP isRecordFile + files.countP isNonDictFile := by
  induction files with
  | nil => simp
  | cons f fs ih =>
    simp only [List.countP_cons]
    cases f <;> simp [isCounted, isRecordFile, isNonDictFile, ih] <;> omega

/-! ## Claim C5: bucket accounting -/

/-- C5 counterexample: one record with status `"broken"`.  The report
generator counts it in `total` but has no `broken` bucket, so the shortfall
`total - (passed + failed + skipped)` is `1` even though no record has a
missing or unrecognized status (`"broken"` is a recognized status of the
five-value taxonomy): the shortfall is not attributable to unknown-status
records in the report generator's parser. -/
theorem gen_shortfall_not_unknown :
    ((gen_parse_allure_results
        (some [.record { RawRecord.default0 with status := some "broken" }])).map
      (fun g => g.total - (g.passed + g.failed + g.skipped))) = some 1 ∧
    ([ResultFile.record { RawRecord.default0 with status := some "broken" }].countP
      specUnknownStatus) = 0 ∧
    (1 : Nat) ≠ 0 := by
  exact ⟨rfl, rfl, by decide⟩

/-- C5 amended: in the metrics calculator,
`passed + failed + skipped + broken ≤ total` with the shortfall exactly the
files counted in `total` that land in no bucket (missing or unrecognized
status, including non-object JSON files); in the report generator there is no
`broken` bucket, so `passed + failed + skipped ≤ total` with the shortfall
exactly the files whose observed status is outside
`{passed, failed, skipped}` — which includes `broken`-status records.  All
counts are `Nat`, hence non-negative. -/
theorem bucket_accounting_amended (files : List ResultFile) :
    (calc_parse_allure_results (some files)).passed +
        (calc_parse_allure_results (some files)).failed +
        (calc_parse_allure_results (some files)).skipped +
        (calc_parse_allure_results (some files)).broken ≤
      (calc_parse_allure_results (some files)).total ∧
    (calc_parse_allure_results (some files)).total =
      (calc_parse_allure_results (some files)).passed +
        (calc_parse_allure_results (some files)).failed +
        (calc_parse_allure_results (some files)).skipped +
        (calc_parse_allure_results (some files)).broken +
        files.countP calcNoBucket ∧
    gen_parse_allure_results (some files) =
      some (files.foldl genProcessFile emptyGenResults) ∧
    (files.foldl genProcessFile emptyGenResults).passed +
        (files.foldl genProcessFile emptyGenResults).failed +
        (files.foldl genProcessFile emptyGenResults).skipped ≤
      (files.foldl genProcessFile emptyGenResults).total ∧
    (files.foldl genProcessFile emptyGenResults).total =
      (files.foldl genProcessFile emptyGenResults).passed +
        (files.foldl genProcessFile emptyGenResults).failed +
        (files.foldl genProcessFile emptyGenResults).skipped +
        files.countP genNoBucket := by
  have hg := gen_foldl_counts files emptyGenResults
  have hpart := countP_calc_partition files
  have hgpart := countP_gen_partition files
  by_cases he : files.isEmpty
  · have : files = [] := by
      cases files with
      | nil => rfl
      | cons a l => simp [List.isEmpty] at he
    subst this
    refine ⟨?_, ?_, rfl, ?_, ?_⟩ <;>
      simp [calc_parse_allure_results, emptyMetrics, emptyGenResults]
  · have hc := calc_foldl_counts files emptyMetrics
    have hparse : calc_parse_allure_results (some files) =
        files.foldl calcProcessFile emptyMetrics := by
      simp [calc_parse_allure_results, he]
    rw [hparse]
    simp only [emptyMetrics, emptyGenResults] at hc hg ⊢
    refine ⟨by omega, by omega, rfl, by omega, by omega⟩

/-! ## Claim C10: tests list length versus total -/

/-- C10 counterexample: a directory with one valid-JSON non-object file.
Both parsers count it in `total` (the increment happens before
`data.get('status', ...)` raises) but append no entry to `tests`, so the
tests list is shorter than `total`. -/
theorem tests_length_ne_total :
    (calc_parse_allure_results (some [.nonDict])).tests.length = 0 ∧
    (calc_parse_allure_results (some [.nonDict])).total = 1 ∧
    ((gen_parse_allure_results (some [.nonDict])).map
      (fun g => (g.tests.length, g.total))) = some (0, 1) ∧
    (0 : Nat) ≠ 1 := by
  exact ⟨rfl, rfl, rfl, by decide⟩

/-- C10 amended: in both parsers the `tests` list has one entry per JSON
*object* file, while `total` also counts valid-JSON non-object files, so
`tests.length ≤ total` always, with equality exactly when no such file is
present. -/
theorem tests_length_amended (files : List ResultFile) :
    (calc_parse_allure_results (some files)).tests.length =
      files.countP isRecordFile ∧
    (calc_parse_allure_results (some files)).total =
      files.countP isRecordFile + files.countP isNonDictFile ∧
    (calc_parse_allure_results (some files)).tests.length ≤
      (calc_parse_allure_results (some files)).total ∧
    (files.countP isNonDictFile = 0 →
      (calc_parse_allure_results (some files)).tests.length =
        (calc_parse_allure_results (some files)).total) ∧
    (files.foldl genProcessFile emptyGenResults).tests.length =
      files.countP isRecordFile ∧
    (files.foldl genProcessFile emptyGenResults).total =
      files.countP isRecordFile + files.countP isNonDictFile := by
  have hg := gen_foldl_counts files emptyGenResults
  have hsplit := countP_counted_split files
  by_cases he : files.isEmpty
  · have : files = [] := by
      cases files with
      | nil => rfl
      | cons a l => simp [List.isEmpty] at he
    subst this
    refine ⟨?_, ?_, ?_, fun _ => ?_, ?_, ?_⟩ <;>
      simp [calc_parse_allure_results, emptyMetrics, emptyGenResults]
  · have hc := calc_foldl_counts files emptyMetrics
    have hparse : calc_parse_allure_results (some files) =
        files.foldl calcProcessFile emptyMetrics := by
      simp [calc_parse_allure_results, he]
    rw [hparse]
    simp only [emptyMetrics, emptyGenResults, List.length_nil] at hc hg ⊢
    refine ⟨by omega, by omega, by omega, fun h0 => by omega, by omega, by omega⟩

/-- C10 amended witness: one well-formed record file gives
`tests.length = total = 1`. -/
theorem tests_length_amended_witness :
    ([ResultFile.record RawRecord.default0].countP isNonDictFile = 0) ∧
    (calc_parse_allure_results (some [.record RawRecord.default0])).tests.length =
      (calc_parse_allure_results (some [.record RawRecord.default0])).total := by
  exact ⟨by decide,
    (tests_length_amended [.record RawRecord.default0]).2.2.2.1 (by decide)⟩

/-- C3: the metrics-only entry point always exits 0 — for every directory
state, including ones with failed tests — and when zero result files are
discovered (missing directory or empty scan) it writes the all-zero key-value
summary file. -/
theorem calc_main_spec (dir : Option (List ResultFile)) :
    (calc_main dir).exitCode = 0 ∧
    (dir = none ∨ dir = some [] →
      (calc_main dir).metricsFile = allZeroMetricsFile) := by
  constructor
  · unfold calc_main
    by_cases h : (calc_parse_allure_results dir).total = 0 <;> simp [h]
  · rintro (rfl | rfl) <;> rfl

/-- C3 witness: an empty results directory exits 0 and writes the all-zero
summary file. -/
theorem calc_main_spec_witness :
    (calc_main (some [])).exitCode = 0 ∧
    (calc_main (some [])).metricsFile = allZeroMetricsFile := by
  exact ⟨(calc_main_spec (some [])).1, (calc_main_spec (some [])).2 (Or.inr rfl)⟩

/-- C2: the full-report entry point exits 1 and writes nothing when the
results directory is missing or contains zero result files; when result files
exist it exits 1 exactly when the parsed `failed` count — the number of
records with status `"failed"` — is positive, and 0 otherwise. -/
theorem reports_main_spec (dir : Option (List ResultFile)) :
    (dir = none →
      (reports_main dir).exitCode = 1 ∧ (reports_main dir).reportsWritten = []) ∧
    (∀ files, dir = some files →
      (files = [] →
        (reports_main dir).exitCode = 1 ∧
        (reports_main dir).reportsWritten = []) ∧
      (files ≠ [] →
        ((reports_main dir).exitCode = 1 ↔
          0 < (files.foldl genProcessFile emptyGenResults).failed) ∧
        ((reports_main dir).exitCode = 0 ↔
          (files.foldl genProcessFile emptyGenResults).failed = 0) ∧
        (files.foldl genProcessFile emptyGenResults).failed =
          files.countP (hasStatus "failed"))) := by
  refine ⟨fun h => by subst h; exact ⟨rfl, rfl⟩, fun files h => ?_⟩
  subst h
  refine ⟨fun h0 => by subst h0; exact ⟨rfl, rfl⟩, ?_⟩
  intro hne
  have hlen : ¬ files.length = 0 := by
    simpa [List.length_eq_zero] using hne
  have hcount := (gen_foldl_counts files emptyGenResults).2.2.1
  refine ⟨?_, ?_, ?_⟩
  · simp only [reports_main, hlen, if_false]
    by_cases hf : 0 < (files.foldl genProcessFile emptyGenResults).failed <;>
      simp [hf]
  · simp only [reports_main, hlen, if_false]
    by_cases hf : 0 < (files.foldl genProcessFile emptyGenResults).failed <;>
      simp [hf] <;> omega
  · simpa [emptyGenResults] using hcount

/-- C2 witness: one `failed` record file exits 1; one `skipped` record file
exits 0. -/
theorem reports_main_spec_witness :
    (reports_main (some [.record { RawRecord.default0 with status := some "failed" }])).exitCode = 1 ∧
    (reports_main (some [.record { RawRecord.default0 with status := some "skipped" }])).exitCode = 0 ∧
    (reports_main (some [])).exitCode = 1 ∧
    (reports_main (some [])).reportsWritten = [] := by
  refine ⟨?_, ?_, ?_, ?_⟩
  · exact (((reports_main_spec (some [.record { RawRecord.default0 with
      status := some "failed" }])).2 _ rfl).2 (by decide)).1.mpr (by decide)
  · exact (((reports_main_spec (some [.record { RawRecord.default0 with
      status := some "skipped" }])).2 _ rfl).2 (by decide)).2.1.mpr (by decide)
  · exact (((reports_main_spec (some [])).2 [] rfl).1 rfl).1
  · exact (((reports_main_spec (some [])).2 [] rfl).1 rfl).2

/-- Valid digit characters parse back to their value. -/
theorem parseDigitsAcc_digitChar10 (acc d : Nat) (hd : d < 10) :
    parseDigitsAcc acc [digitChar10 d] = some (10 * acc + d) := by
  interval_cases d <;> simp [parseDigitsAcc, digitChar10]

/-- The accumulator pass `parseDigitsAcc` distributes over list append. -/
theorem parseDigitsAcc_append (xs ys : List Char) :
    ∀ acc, parseDigitsAcc acc (xs ++ ys) =
      (parseDigitsAcc acc xs).bind (fun a => parseDigitsAcc a ys) := by
  induction xs with
  | nil => intro acc; rfl
  | cons c cs ih =>
    intro acc
    by_cases h : c.isDigit <;> simp [parseDigitsAcc, h, ih]

/-- Fuel does not matter at argument `0`. -/
theorem natDigitsLEAux_zero (fuel : Nat) : natDigitsLEAux fuel 0 = [] := by
  cases fuel <;> rfl

/-- Round trip of the digit expansion: rendering then re-parsing restores the
number (stated for arbitrary accumulator and sufficient fuel). -/
theorem parseDigitsAcc_natDigitsLEAux :
    ∀ fuel n acc, 0 < n → n ≤ fuel →
      parseDigitsAcc acc (natDigitsLEAux fuel n).reverse =
        some (acc * 10 ^ (natDigitsLEAux fuel n).length + n) := by
  intro fuel
  induction fuel with
  | zero => intro n acc h1 h2; omega
  | succ f ih =>
    intro n acc h1 h2
    match n, h1 with
    | m + 1, _ =>
      have hdig : (m + 1) % 10 < 10 := Nat.mod_lt _ (by omega)
      have hstep : natDigitsLEAux (f + 1) (m + 1) =
          digitChar10 ((m + 1) % 10) :: natDigitsLEAux f ((m + 1) / 10) := rfl
      by_cases hq : (m + 1) / 10 = 0
      · rw [hstep, hq, natDigitsLEAux_zero]
        simp only [List.reverse_cons, List.reverse_nil, List.nil_append,
          List.length_cons, List.length_nil]
        rw [parseDigitsAcc_digitChar10 acc _ hdig]
        congr 1
        simp only [pow_one, Nat.zero_add]
        omega
      · have hle : (m + 1) / 10 ≤ f := by
          have := Nat.div_lt_self (Nat.succ_pos m) (show 1 < 10 by omega)
          omega
        have hpos : 0 < (m + 1) / 10 := Nat.pos_of_ne_zero hq
        rw [hstep]
        simp only [List.reverse_cons, List.length_cons]
        rw [parseDigitsAcc_append]
        rw [ih ((m + 1) / 10) acc hpos hle]
        simp only [Option.some_bind]
        rw [parseDigitsAcc_digitChar10 _ _ hdig]
        congr 1
        calc 10 * (acc * 10 ^ (natDigitsLEAux f ((m + 1) / 10)).length + (m + 1) / 10) +
              (m + 1) % 10
            = acc * (10 ^ (natDigitsLEAux f ((m + 1) / 10)).length * 10) +
              (10 * ((m + 1) / 10) + (m + 1) % 10) := by ring
          _ = acc * 10 ^ ((natDigitsLEAux f ((m + 1) / 10)).length + 1) + (m + 1) := by
              rw [← pow_succ]
              congr 1
              omega

/-- Rendering a natural number in decimal and re-parsing it restores the
number. -/
theorem parseDigits_renderNat (n : Nat) :
    parseDigits (renderNat n).data = some n := by
  by_cases h : n = 0
  · subst h; decide
  · have hpos : 0 < n := Nat.pos_of_ne_zero h
    have hcons : ∃ c cs, natDigitsLEAux n n = c :: cs := by
      match n, hpos with
      | m + 1, _ => exact ⟨_, _, rfl⟩
    obtain ⟨c, cs, hc⟩ := hcons
    have hrev : ∃ c' cs', (natDigitsLE n).reverse = c' :: cs' := by
      have : (natDigitsLE n).reverse ≠ [] := by simp [natDigitsLE, hc]
      match hx : (natDigitsLE n).reverse, this with
      | c' :: cs', _ => exact ⟨c', cs', rfl⟩
    obtain ⟨c', cs', hrev⟩ := hrev
    unfold renderNat
    simp only [h, if_false]
    show parseDigits (natDigitsLE n).reverse = some n
    have hparse := parseDigitsAcc_natDigitsLEAux n n 0 hpos (le_refl n)
    rw [hrev]
    show parseDigitsAcc 0 (c' :: cs') = some n
    rw [← hrev]
    unfold natDigitsLE
    rw [hparse]
    simp

/-- The badge color as an if-chain over the pass rate. -/
theorem badge_color_eq (m : Metrics) :
    (create_gitlab_badge_data m).color =
      if 95 ≤ calculate_pass_rate m then "success"
      else if 80 ≤ calculate_pass_rate m then "warning"
      else "critical" := rfl

/-- C6: the badge always carries `schemaVersion 1`, label `"tests"` and
message `"<passed>/<total> passed"`; its color is `"success"` iff
`pass_rate ≥ 95`, `"warning"` iff `80 ≤ pass_rate < 95` and `"critical"` iff
`pass_rate < 80`; and on 18 passed of 20 (pass rate 90) the badge is
`warning` and the printed quality band is the WARNING line. -/
theorem create_gitlab_badge_data_spec (m : Metrics) :
    (create_gitlab_badge_data m).schemaVersion = 1 ∧
    (create_gitlab_badge_data m).label = "tests" ∧
    (create_gitlab_badge_data m).message =
      renderNat m.passed ++ "/" ++ renderNat m.total ++ " passed" ∧
    ((create_gitlab_badge_data m).color = "success" ↔
      95 ≤ calculate_pass_rate m) ∧
    ((create_gitlab_badge_data m).color = "warning" ↔
      80 ≤ calculate_pass_rate m ∧ calculate_pass_rate m < 95) ∧
    ((create_gitlab_badge_data m).color = "critical" ↔
      calculate_pass_rate m < 80) ∧
    calculate_pass_rate exampleMetrics1820 = 90 ∧
    create_gitlab_badge_data exampleMetrics1820 =
      { schemaVersion := 1, label := "tests", message := "18/20 passed",
        color := "warning" } ∧
    print_quality_assessment (calculate_pass_rate exampleMetrics1820) =
      "   ⚠️  WARNING - Significant failures" := by
  have hrate : calculate_pass_rate exampleMetrics1820 = 90 := by
    unfold calculate_pass_rate exampleMetrics1820 emptyMetrics
    norm_num
  refine ⟨rfl, rfl, rfl, ?_, ?_, ?_, hrate, ?_, ?_⟩
  · rw [badge_color_eq]
    split_ifs with h1 h2
    · simp [h1]
    · simp only [iff_false_intro h1, iff_false]
      decide
    · simp only [iff_false_intro h1, iff_false]
      decide
  · rw [badge_color_eq]
    split_ifs with h1 h2
    · constructor
      · intro hx; exact absurd hx (by decide)
      · rintro ⟨-, hlt⟩; linarith
    · simp only [true_iff]
      exact ⟨h2, by linarith [not_le.mp h1]⟩
    · constructor
      · intro hx; exact absurd hx (by decide)
      · rintro ⟨hge, -⟩; exact absurd hge h2
  · rw [badge_color_eq]
    split_ifs with h1 h2
    · constructor
      · intro hx; exact absurd hx (by decide)
      · intro hlt; linarith
    · constructor
      · intro hx; exact absurd hx (by decide)
      · intro hlt; exact absurd h2 (not_le.mpr hlt)
    · simp only [true_iff]
      exact not_le.mp h2
  · have h1 : ¬ (95 ≤ calculate_pass_rate exampleMetrics1820) := by
      rw [hrate]; norm_num
    have h2 : 80 ≤ calculate_pass_rate exampleMetrics1820 := by
      rw [hrate]; norm_num
    have e : create_gitlab_badge_data exampleMetrics1820 =
        { schemaVersion := 1, label := "tests",
          message := renderNat exampleMetrics1820.passed ++ "/" ++
            renderNat exampleMetrics1820.total ++ " passed",
          color := (create_gitlab_badge_data exampleMetrics1820).color } := rfl
    rw [e, badge_color_eq, if_neg h1, if_pos h2]
    rfl
  · unfold print_quality_assessment
    rw [hrate]
    rw [if_neg (by norm_num : ¬ ((90 : Rat) = 100)),
      if_neg (by norm_num : ¬ ((90 : Rat) ≥ 95)),
      if_pos (by norm_num : (90 : Rat) ≥ 80)]

/-! ## Claim C7: slowest tests -/

/-- Inserting keeps the same multiset of records. -/
theorem insertByDurationDesc_perm (x : TestRec) (l : List TestRec) :
    (insertByDurationDesc x l).Perm (x :: l) := by
  induction l with
  | nil => exact List.Perm.refl _
  | cons y ys ih =>
    unfold insertByDurationDesc
    split
    · exact ((ih.cons y).trans (List.Perm.swap x y ys))
    · exact List.Perm.refl _

/-- The sort is a permutation of its input. -/
theorem sortByDurationDesc_perm (l : List TestRec) :
    (sortByDurationDesc l).Perm l := by
  induction l with
  | nil => exact List.Perm.refl _
  | cons x xs ih =>
    exact (insertByDurationDesc_perm x _).trans (ih.cons x)

/-- Inserting preserves descending order by duration. -/
theorem insertByDurationDesc_pairwise (x : TestRec) (l : List TestRec)
    (h : List.Pairwise (fun a b => b.duration ≤ a.duration) l) :
    List.Pairwise (fun a b => b.duration ≤ a.duration)
      (insertByDurationDesc x l) := by
  induction l with
  | nil => simp [insertByDurationDesc]
  | cons y ys ih =>
    rw [List.pairwise_cons] at h
    unfold insertByDurationDesc
    split
    · rename_i hgt
      rw [List.pairwise_cons]
      refine ⟨?_, ih h.2⟩
      intro z hz
      rw [(insertByDurationDesc_perm x ys).mem_iff] at hz
      rcases List.mem_cons.mp hz with hz | hz
      · subst hz; exact le_of_lt hgt
      · exact h.1 z hz
    · rename_i hle
      push_neg at hle
      rw [List.pairwise_cons]
      refine ⟨?_, List.pairwise_cons.mpr h⟩
      intro z hz
      rcases List.mem_cons.mp hz with hz | hz
      · subst hz; exact hle
      · exact le_trans (h.1 z hz) hle

/-- The sort output is descending by duration. -/
theorem sortByDurationDesc_pairwise (l : List TestRec) :
    List.Pairwise (fun a b => b.duration ≤ a.duration)
      (sortByDurationDesc l) := by
  induction l with
  | nil => simp [sortByDurationDesc]
  | cons x xs ih => exact insertByDurationDesc_pairwise x _ ih

/-- Stability of insertion: restricted to any one duration value, inserting
an element that came earlier in the input puts it first. -/
theorem filter_insertByDurationDesc (d : Rat) (x : TestRec)
    (ys : List TestRec) :
    (insertByDurationDesc x ys).filter (fun t => t.duration == d) =
      if x.duration == d then
        x :: ys.filter (fun t => t.duration == d)
      else ys.filter (fun t => t.duration == d) := by
  induction ys with
  | nil =>
    by_cases hx : x.duration == d <;> simp [insertByDurationDesc, hx]
  | cons y ys ih =>
    unfold insertByDurationDesc
    split
    · rename_i hgt
      by_cases hx : (x.duration == d) = true
      · have hxd : x.duration = d := eq_of_beq hx
        have hyd : ¬ ((y.duration == d) = true) := fun hc =>
          absurd (eq_of_beq hc) (by rw [hxd] at hgt; exact ne_of_gt hgt)
        simp only [List.filter_cons, if_neg hyd, ih, hx, if_true]
      · simp only [List.filter_cons]
        by_cases hyd : (y.duration == d) = true <;>
          simp [hyd, ih, hx]
    · simp only [List.filter_cons]

/-- Stability of the sort: restricted to any one duration value, the sorted
list preserves the input order exactly. -/
theorem filter_sortByDurationDesc (d : Rat) (l : List TestRec) :
    (sortByDurationDesc l).filter (fun t => t.duration == d) =
      l.filter (fun t => t.duration == d) := by
  induction l with
  | nil => rfl
  | cons x xs ih =>
    show (insertByDurationDesc x (sortByDurationDesc xs)).filter _ = _
    rw [filter_insertByDurationDesc]
    by_cases hx : x.duration == d <;> simp [hx, ih, List.filter_cons]

/-- C7: `get_slowest_tests` returns at most `n` records — all of them (the
full sorted permutation of the input) when fewer than `n` exist — sorted
descending by duration, and stable: restricted to any one duration value the
result is a prefix of the input's records with that duration, in input order;
on durations `[5, 1, 9, 3]` with `n = 2` it returns the records with
durations `[9, 5]` in that order. -/
theorem get_slowest_tests_spec (m : Metrics) (n : Nat) :
    (get_slowest_tests m n).length ≤ n ∧
    (m.tests.length ≤ n → get_slowest_tests m n = sortByDurationDesc m.tests) ∧
    (sortByDurationDesc m.tests).Perm m.tests ∧
    List.Pairwise (fun a b => b.duration ≤ a.duration)
      (get_slowest_tests m n) ∧
    (∀ d : Rat, List.IsPrefix
      ((get_slowest_tests m n).filter (fun t => t.duration == d))
      (m.tests.filter (fun t => t.duration == d))) ∧
    get_slowest_tests slowExampleMetrics 2 = [trec "t3" 9, trec "t1" 5] := by
  refine ⟨?_, ?_, sortByDurationDesc_perm m.tests, ?_, ?_, ?_⟩
  · simp only [get_slowest_tests, List.length_take]
    exact min_le_left _ _
  · intro hlen
    have hslen : (sortByDurationDesc m.tests).length ≤ n := by
      rw [(sortByDurationDesc_perm m.tests).length_eq]
      exact hlen
    exact List.take_of_length_le hslen
  · exact (sortByDurationDesc_pairwise m.tests).sublist
      (List.take_sublist n _)
  · intro d
    have h1 : List.IsPrefix
        ((get_slowest_tests m n).filter (fun t => t.duration == d))
        ((sortByDurationDesc m.tests).filter (fun t => t.duration == d)) :=
      (List.take_prefix n _).filter _
    rwa [filter_sortByDurationDesc] at h1
  · decide

/-- Accumulating string folds are joins. -/
theorem foldl_string_append (f : TestRec → String) (l : List TestRec) :
    ∀ init : String, l.foldl (fun acc t => acc ++ f t) init =
      init ++ String.join (l.map f) := by
  induction l with
  | nil =>
    intro init
    apply String.ext
    simp [String.data_append, String.data_join]
  | cons x xs ih =>
    intro init
    simp only [List.foldl_cons, List.map_cons]
    rw [ih]
    apply String.ext
    simp [String.data_append, String.data_join]

/-- C8: the Markdown summary is the base report, then — only when some test
failed — the failed-tests header with exactly one bullet per failed test name
in original scan order, then the slowest-tests section; the failed-tests
section is empty exactly when no record has status `"failed"`, and the failed
list is the in-order filter of the parsed records. -/
theorem generate_markdown_summary_spec (m : Metrics) :
    generate_markdown_summary m =
      md_base m ++
        (if get_failed_tests m = [] then ""
         else "\n### ❌ Failed Tests\n\n" ++
           String.join ((get_failed_tests m).map failed_bullet)) ++
        md_slowest_section (get_slowest_tests m 5) ∧
    (md_failed_section (get_failed_tests m) = "" ↔ get_failed_tests m = []) ∧
    get_failed_tests m = m.tests.filter (fun t => t.status = "failed") := by
  have hsec : ∀ l : List TestRec, md_failed_section l =
      if l = [] then ""
      else "\n### ❌ Failed Tests\n\n" ++ String.join (l.map failed_bullet) := by
    intro l
    unfold md_failed_section
    cases l with
    | nil => simp
    | cons x xs =>
      simp only [List.isEmpty_cons, if_false, List.cons_ne_nil]
      rw [foldl_string_append]
      simp
  refine ⟨?_, ?_, rfl⟩
  · unfold generate_markdown_summary
    rw [hsec]
  · rw [hsec]
    cases hl : get_failed_tests m with
    | nil => simp
    | cons x xs =>
      simp only [List.cons_ne_nil, if_false, iff_false]
      intro hcontra
      have : ("\n### ❌ Failed Tests\n\n" ++
          String.join ((x :: xs).map failed_bullet)).data = ("" : String).data := by
        rw [hcontra]
      simp [String.data_append] at this

/-- C7 witness: with `n = 10` and four records, the result is the whole
sorted list. -/
theorem get_slowest_tests_spec_witness :
    slowExampleMetrics.tests.length ≤ 10 ∧
    get_slowest_tests slowExampleMetrics 10 =
      sortByDurationDesc slowExampleMetrics.tests := by
  exact ⟨by decide, (get_slowest_tests_spec slowExampleMetrics 10).2.1 (by decide)⟩

/-- Taking at most the length of the left part ignores the right part. -/
theorem take_append_le {α : Type} (l1 l2 : List α) (k : Nat)
    (h : k ≤ l1.length) : (l1 ++ l2).take k = l1.take k := by
  induction l1 generalizing k with
  | nil =>
    have : k = 0 := by simpa using h
    subst this
    simp
  | cons a l ih =>
    cases k with
    | zero => simp
    | succ k' =>
      simp only [List.cons_append, List.take_succ_cons, List.cons.injEq,
        true_and]
      exact ih k' (by simpa using h)

/-- Stripping a prefix from itself plus a remainder yields the remainder. -/
theorem stripPrefixChars_self_append (ps rest : List Char) :
    stripPrefixChars ps (ps ++ rest) = some rest := by
  induction ps with
  | nil => rfl
  | cons p ps ih => simp [stripPrefixChars, ih]

/-- A successful strip characterizes the input as prefix plus remainder. -/
theorem stripPrefixChars_eq_some (ps : List Char) :
    ∀ cs r, stripPrefixChars ps cs = some r → cs = ps ++ r := by
  induction ps with
  | nil =>
    intro cs r h
    simpa [stripPrefixChars] using h
  | cons p ps ih =>
    intro cs r h
    cases cs with
    | nil => simp [stripPrefixChars] at h
    | cons c cs' =>
      by_cases hc : c = p
      · subst hc
        simp only [stripPrefixChars, if_pos rfl] at h
        simp [ih cs' r h]
      · simp [stripPrefixChars, hc] at h

/-- If the expected prefix disagrees with the line's first `k` characters,
the strip fails, whatever follows. -/
theorem stripPrefixChars_append_none (ps cs rest : List Char) (k : Nat)
    (h1 : k ≤ ps.length) (h2 : k ≤ cs.length)
    (hne : ps.take k ≠ cs.take k) :
    stripPrefixChars ps (cs ++ rest) = none := by
  cases h : stripPrefixChars ps (cs ++ rest) with
  | none => rfl
  | some r =>
    exfalso
    have heq := stripPrefixChars_eq_some ps (cs ++ rest) r h
    apply hne
    have ha : (ps ++ r).take k = ps.take k := take_append_le ps r k h1
    have hb : (cs ++ rest).take k = cs.take k := take_append_le cs rest k h2
    rw [← ha, ← heq, hb]

/-- A row's mismatch is already visible in the first three characters of its
fixed part. -/
theorem matchRow_none_of_take3 (L line : String) (cs rest : List Char)
    (hdata : line.data = cs ++ rest)
    (h1 : 3 ≤ ("| " ++ L ++ " | ").data.length) (h2 : 3 ≤ cs.length)
    (hne : ("| " ++ L ++ " | ").data.take 3 ≠ cs.take 3) :
    matchRow L line = none := by
  unfold matchRow
  rw [hdata, stripPrefixChars_append_none _ _ _ 3 h1 h2 hne]

/-- Stripping the `" |"` delimiter from a cell plus delimiter. -/
theorem stripCellSuffix_append (ds : List Char) :
    stripCellSuffix (ds ++ [' ', '|']) = some ds := by
  unfold stripCellSuffix
  rw [List.reverse_append]
  simp

/-- A genuine emitted row with the matching label parses to its cell value. -/
theorem matchRow_eval (L line : String) (n : Nat)
    (h : line.data = ("| " ++ L ++ " | ").data ++
      ((renderNat n).data ++ [' ', '|'])) :
    matchRow L line = some n := by
  unfold matchRow
  simp only [h, stripPrefixChars_self_append, stripCellSuffix_append,
    parseDigits_renderNat]

/-- A non-matching head line is skipped by the row search. -/
theorem findSome?_matchRow_skip (L line : String) (ls : List String)
    (h : matchRow L line = none) :
    (line :: ls).findSome? (matchRow L) = ls.findSome? (matchRow L) := by
  simp [List.findSome?_cons, h]

/-- A matching head line resolves the row search. -/
theorem findSome?_matchRow_hit (L line : String) (ls : List String) (n : Nat)
    (h : matchRow L line = some n) :
    (line :: ls).findSome? (matchRow L) = some n := by
  simp [List.findSome?_cons, h]

/-- C9: rendering the comprehensive template and re-parsing the integer rows
(Total Tests, Passed, Failed, Skipped) of the emitted Executive Summary
Markdown table reproduces exactly the `total`, `passed`, `failed` and
`skipped` integers that were fed in — for every metrics value and every
timestamp. -/
theorem comprehensive_roundtrip (r : GenResults) (ts : String) :
    parseRowNat "Total Tests" (comprehensiveLines r ts) = some r.total ∧
    parseRowNat "✅ Passed" (comprehensiveLines r ts) = some r.passed ∧
    parseRowNat "❌ Failed" (comprehensiveLines r ts) = some r.failed ∧
    parseRowNat "⏭️ Skipped" (comprehensiveLines r ts) = some r.skipped := by
  refine ⟨?_, ?_, ?_, ?_⟩
  · unfold parseRowNat comprehensiveLines comprehensiveHeader
    simp only [List.cons_append, List.nil_append]
    rw [findSome?_matchRow_skip _ _ _ (by decide)]
    rw [findSome?_matchRow_skip _ _ _ (by decide)]
    rw [findSome?_matchRow_skip _ _ _ (matchRow_none_of_take3 _ _ "**Generated:** ".data
      (ts.data ++ "  ".data) (by simp [String.data_append, List.append_assoc])
      (by decide) (by decide) (by decide))]
    rw [findSome?_matchRow_skip _ _ _ (by decide)]
    rw [findSome?_matchRow_skip _ _ _ (by decide)]
    rw [findSome?_matchRow_skip _ _ _ (by decide)]
    rw [findSome?_matchRow_skip _ _ _ (by decide)]
    rw [findSome?_matchRow_skip _ _ _ (by decide)]
    rw [findSome?_matchRow_skip _ _ _ (by decide)]
    rw [findSome?_matchRow_skip _ _ _ (by decide)]
    rw [findSome?_matchRow_skip _ _ _ (by decide)]
    rw [findSome?_matchRow_hit _ _ _ r.total (matchRow_eval _ _ r.total
      (by simp [String.data_append, List.append_assoc]))]
  · unfold parseRowNat comprehensiveLines comprehensiveHeader
    simp only [List.cons_append, List.nil_append]
    rw [findSome?_matchRow_skip _ _ _ (by decide)]
    rw [findSome?_matchRow_skip _ _ _ (by decide)]
    rw [findSome?_matchRow_skip _ _ _ (matchRow_none_of_take3 _ _ "**Generated:** ".data
      (ts.data ++ "  ".data) (by simp [String.data_append, List.append_assoc])
      (by decide) (by decide) (by decide))]
    rw [findSome?_matchRow_skip _ _ _ (by decide)]
    rw [findSome?_matchRow_skip _ _ _ (by decide)]
    rw [findSome?_matchRow_skip _ _ _ (by decide)]
    rw [findSome?_matchRow_skip _ _ _ (by decide)]
    rw [findSome?_matchRow_skip _ _ _ (by decide)]
    rw [findSome?_matchRow_skip _ _ _ (by decide)]
    rw [findSome?_matchRow_skip _ _ _ (by decide)]
    rw [findSome?_matchRow_skip _ _ _ (by decide)]
    rw [findSome?_matchRow_skip _ _ _ (matchRow_none_of_take3 _ _ "| Total Tests | ".data
      ((renderNat r.total).data ++ [' ', '|'])
      (by simp [String.data_append, List.append_assoc])
      (by decide) (by decide) (by decide))]
    rw [findSome?_matchRow_hit _ _ _ r.passed (matchRow_eval _ _ r.passed
      (by simp [String.data_append, List.append_assoc]))]
  · unfold parseRowNat comprehensiveLines comprehensiveHeader
    simp only [List.cons_append, List.nil_append]
    rw [findSome?_matchRow_skip _ _ _ (by decide)]
    rw [findSome?_matchRow_skip _ _ _ (by decide)]
    rw [findSome?_matchRow_skip _ _ _ (matchRow_none_of_take3 _ _ "**Generated:** ".data
      (ts.data ++ "  ".data) (by simp [String.data_append, List.append_assoc])
      (by decide) (by decide) (by decide))]
    rw [findSome?_matchRow_skip _ _ _ (by decide)]
    rw [findSome?_matchRow_skip _ _ _ (by decide)]
    rw [findSome?_matchRow_skip _ _ _ (by decide)]
    rw [findSome?_matchRow_skip _ _ _ (by decide)]
    rw [findSome?_matchRow_skip _ _ _ (by decide)]
    rw [findSome?_matchRow_skip _ _ _ (by decide)]
    rw [findSome?_matchRow_skip _ _ _ (by decide)]
    rw [findSome?_matchRow_skip _ _ _ (by decide)]
    rw [findSome?_matchRow_skip _ _ _ (matchRow_none_of_take3 _ _ "| Total Tests | ".data
      ((renderNat r.total).data ++ [' ', '|'])
      (by simp [String.data_append, List.append_assoc])
      (by decide) (by decide) (by decide))]
    rw [findSome?_matchRow_skip _ _ _ (matchRow_none_of_take3 _ _ "| ✅ Passed | ".data
      ((renderNat r.passed).data ++ [' ', '|'])
      (by simp [String.data_append, List.append_assoc])
      (by decide) (by decide) (by decide))]
    rw [findSome?_matchRow_hit _ _ _ r.failed (matchRow_eval _ _ r.failed
      (by simp [String.data_append, List.append_assoc]))]
  · unfold parseRowNat comprehensiveLines comprehensiveHeader
    simp only [List.cons_append, List.nil_append]
    rw [findSome?_matchRow_skip _ _ _ (by decide)]
    rw [findSome?_matchRow_skip _ _ _ (by decide)]
    rw [findSome?_matchRow_skip _ _ _ (matchRow_none_of_take3 _ _ "**Generated:** ".data
      (ts.data ++ "  ".data) (by simp [String.data_append, List.append_assoc])
      (by decide) (by decide) (by decide))]
    rw [findSome?_matchRow_skip _ _ _ (by decide)]
    rw [findSome?_matchRow_skip _ _ _ (by decide)]
    rw [findSome?_matchRow_skip _ _ _ (by decide)]
    rw [findSome?_matchRow_skip _ _ _ (by decide)]
    rw [findSome?_matchRow_skip _ _ _ (by decide)]
    rw [findSome?_matchRow_skip _ _ _ (by decide)]
    rw [findSome?_matchRow_skip _ _ _ (by decide)]
    rw [findSome?_matchRow_skip _ _ _ (by decide)]
    rw [findSome?_matchRow_skip _ _ _ (matchRow_none_of_take3 _ _ "| Total Tests | ".data
      ((renderNat r.total).data ++ [' ', '|'])
      (by simp [String.data_append, List.append_assoc])
      (by decide) (by decide) (by decide))]
    rw [findSome?_matchRow_skip _ _ _ (matchRow_none_of_take3 _ _ "| ✅ Passed | ".data
      ((renderNat r.passed).data ++ [' ', '|'])
      (by simp [String.data_append, List.append_assoc])
      (by decide) (by decide) (by decide))]
    rw [findSome?_matchRow_skip _ _ _ (matchRow_none_of_take3 _ _ "| ❌ Failed | ".data
      ((renderNat r.failed).data ++ [' ', '|'])
      (by simp [String.data_append, List.append_assoc])
      (by decide) (by decide) (by decide))]
    rw [findSome?_matchRow_hit _ _ _ r.skipped (matchRow_eval _ _ r.skipped
      (by simp [String.data_append, List.append_assoc]))]
